import Mathlib

/-!
Shallow embedding of the bevy_editor crate (src/lib.rs, src/input.rs).

Machine floats (f32/f64 scale factors, egui rectangle coordinates, gizmo
transform components) are modelled as exact rationals; the Rust saturating
float-to-integer cast `as u32` is modelled by truncation clamped to
[0, 2^32 - 1].  Engine-side handles (Entity, TypeId, HandleId) are opaque
identifiers modelled as naturals.
-/

namespace BevyEditor

abbrev Entity := Nat

abbrev TypeId := Nat

abbrev HandleId := Nat

/-- Key codes used by the editor (src/input.rs F1; src/lib.rs R, T, S). -/
inductive KeyCode where
  | R
  | T
  | S
  | F1
deriving DecidableEq

/-- egui_gizmo::GizmoMode. -/
inductive GizmoMode where
  | Rotate
  | Translate
  | Scale
deriving DecidableEq

/-- egui_gizmo::GizmoOrientation. -/
inductive GizmoOrientation where
  | Local
  | Global
deriving DecidableEq

/-! ## src/input.rs -/

/-- src/input.rs, editor_input_system: one frame of the mode-toggle system.
`just_pressed` is the edge-triggered keyboard query for this frame; the
EditorResource boolean is flipped exactly when F1 was just pressed. -/
def editor_input_system (just_pressed : KeyCode → Bool) (ed : Bool) : Bool :=
  if just_pressed KeyCode.F1 then !ed else ed

/-- Running editor_input_system over a sequence of frames, each frame giving
its own edge-triggered keyboard state. -/
def run_editor_input (frames : List (KeyCode → Bool)) (ed : Bool) : Bool :=
  frames.foldl (fun e jp => editor_input_system jp e) ed

/-! ## src/lib.rs: set_gizmo_mode -/

/-- src/lib.rs lines 118-128, set_gizmo_mode: iterate the fixed array
[(R, Rotate), (T, Translate), (S, Scale)]; every just-pressed key overwrites
the mode, so the last just-pressed entry in iteration order wins. -/
def set_gizmo_mode (just_pressed : KeyCode → Bool) (m : GizmoMode) : GizmoMode :=
  [(KeyCode.R, GizmoMode.Rotate),
   (KeyCode.T, GizmoMode.Translate),
   (KeyCode.S, GizmoMode.Scale)].foldl
    (fun acc kv => if just_pressed kv.1 then kv.2 else acc) m

/-! ## src/lib.rs: setup -/

/-- Observable effects of the PostStartup setup system (src/lib.rs 55-68). -/
structure SetupResult where
  mainCameraTagged : Option Entity
  editorResourceInserted : Option Bool
  appExitSent : Bool
deriving DecidableEq

/-- src/lib.rs lines 55-68, setup: `query.get_single()` succeeds exactly when
the camera query matches exactly one entity; on failure an AppExit event is
sent and the system returns, otherwise the single camera is tagged MainCamera
and EditorResource(false) is inserted. -/
def setup (cameras : List Entity) : SetupResult :=
  match cameras with
  | [camera] =>
    { mainCameraTagged := some camera
      editorResourceInserted := some false
      appExitSent := false }
  | _ =>
    { mainCameraTagged := none
      editorResourceInserted := none
      appExitSent := true }

/-! ## src/lib.rs: set_camera_viewport -/

/-- egui::Rect, stored as min/max corners; left_top = (min_x, min_y),
size = (max_x - min_x, max_y - min_y). -/
structure EguiRect where
  min_x : ℚ
  min_y : ℚ
  max_x : ℚ
  max_y : ℚ
deriving DecidableEq

/-- The fields of bevy's Window read by set_camera_viewport. -/
structure WindowM where
  scale_factor : ℚ
  physical_width : Nat
  physical_height : Nat
deriving DecidableEq

/-- bevy render::camera::Viewport (physical position, physical size, depth). -/
structure ViewportM where
  physical_position : Nat × Nat
  physical_size : Nat × Nat
  depth_min : ℚ
  depth_max : ℚ
deriving DecidableEq

/-- Rust saturating cast `f32 as u32`: negative values clamp to 0, values
above u32::MAX clamp to u32::MAX, otherwise truncate toward zero. -/
def ratToU32 (q : ℚ) : Nat :=
  if q < 0 then 0 else min (Int.fdiv q.num q.den).toNat (2 ^ 32 - 1)

/-- src/lib.rs lines 85-116, set_camera_viewport.  The camera query state is
the list of MainCamera-tagged cameras, each represented by its viewport
field; `get_single_mut` succeeds exactly on a one-element list.  Without a
primary window the system returns before computing anything; with a window,
the UI rectangle is scaled by window.scale_factor * egui_settings.scale_factor
and, for the single main camera, the viewport is replaced: the scaled
rectangle while inspection mode (EditorResource) is on, the full physical
window at origin (0,0) while it is off. -/
def set_camera_viewport (viewport_rect : EguiRect) (primary_window : Option WindowM)
    (egui_scale_factor : ℚ) (cameras : List (Option ViewportM)) (ed : Bool) :
    List (Option ViewportM) :=
  match primary_window with
  | none => cameras
  | some window =>
    let scale_factor := window.scale_factor * egui_scale_factor
    let viewport_pos :=
      (viewport_rect.min_x * scale_factor, viewport_rect.min_y * scale_factor)
    let viewport_size :=
      ((viewport_rect.max_x - viewport_rect.min_x) * scale_factor,
       (viewport_rect.max_y - viewport_rect.min_y) * scale_factor)
    match cameras with
    | [_] =>
      if ed then
        [some { physical_position := (ratToU32 viewport_pos.1, ratToU32 viewport_pos.2)
                physical_size := (ratToU32 viewport_size.1, ratToU32 viewport_size.2)
                depth_min := 0
                depth_max := 1 }]
      else
        [some { physical_position := (0, 0)
                physical_size := (window.physical_width, window.physical_height)
                depth_min := 0
                depth_max := 1 }]
    | _ => cameras

/-! ## src/lib.rs: draw_gizmo -/

/-- glam Vec3 with exact-rational components. -/
structure V3 where
  x : ℚ
  y : ℚ
  z : ℚ
deriving DecidableEq

/-- glam Quat with exact-rational components. -/
structure V4 where
  x : ℚ
  y : ℚ
  z : ℚ
  w : ℚ
deriving DecidableEq

/-- bevy Transform: translation, rotation, scale. -/
structure Transform where
  translation : V3
  rotation : V4
  scale : V3
deriving DecidableEq

/-- The transform returned by egui_gizmo Gizmo::interact. -/
structure GizmoResult where
  translation : V3
  rotation : V4
  scale : V3
deriving DecidableEq

/-- External capabilities consumed by draw_gizmo, parametric in the engine
types: G = GlobalTransform, O = OrthographicProjection, Pj = Projection,
M = Mat4.  `viewOf` is Mat4::from(t.affine().inverse()), `projOf` and
`orthoProjOf` are CameraProjection::get_projection_matrix, `computeMatrix`
is Transform::compute_matrix, and `interact` is the whole egui_gizmo
builder-plus-interact call for one entity and one frame. -/
structure GizmoEnv (G O Pj M : Type) where
  viewOf : G → M
  projOf : Pj → M
  orthoProjOf : O → M
  computeMatrix : Transform → M
  interact : Entity → M → M → M → GizmoOrientation → GizmoMode → Option GizmoResult

/-- Trace of the observable steps draw_gizmo performs, in program order.
`viewProj true` marks the view/projection-matrix computation of the
perspective (Projection-component) branch, `viewProj false` the one of the
orthographic branch; `modelMatrix` marks Transform::compute_matrix for one
entity; `interact` marks the gizmo render/interact call; `writeBack` marks a
transform mutation. -/
inductive GEvent where
  | viewProj (perspective : Bool)
  | selectionCheck (n : Nat)
  | modelMatrix (e : Entity)
  | interact (e : Entity)
  | writeBack (e : Entity)
deriving DecidableEq

/-- The `for selected in selected_entities.iter()` loop body, identical in
both branches of src/lib.rs draw_gizmo (lines 275-298 and 308-331): skip
entities without a Transform; otherwise compute the model matrix, run the
gizmo, and on an interaction result overwrite the entity's Transform with
the result's translation/rotation/scale. -/
def gizmoLoop {G O Pj M : Type} (env : GizmoEnv G O Pj M) (view proj : M)
    (mode : GizmoMode) (world : Entity → Option Transform) :
    List Entity → (Entity → Option Transform) × List GEvent
  | [] => (world, [])
  | e :: rest =>
    match world e with
    | none => gizmoLoop env view proj mode world rest
    | some t =>
      let model := env.computeMatrix t
      match env.interact e model view proj GizmoOrientation.Local mode with
      | none =>
        let out := gizmoLoop env view proj mode world rest
        (out.1, GEvent.modelMatrix e :: GEvent.interact e :: out.2)
      | some result =>
        let world1 := fun e1 =>
          if e1 = e then
            some { translation := result.translation
                   rotation := result.rotation
                   scale := result.scale }
          else world e1
        let out := gizmoLoop env view proj mode world1 rest
        (out.1, GEvent.modelMatrix e :: GEvent.interact e :: GEvent.writeBack e :: out.2)

/-- src/lib.rs lines 254-332, draw_gizmo.  `perspCam` is the result of the
(GlobalTransform, Projection) MainCamera query, `orthoCam` of the fallback
(GlobalTransform, OrthographicProjection) query.  In the perspective branch
the view and projection matrices are computed (lines 301-302) before the
single-selection check (line 304); in the orthographic branch the check
(line 269) precedes the matrix computation (lines 272-273).  Returns the
final transform store and the trace of steps performed. -/
def draw_gizmo {G O Pj M : Type} (env : GizmoEnv G O Pj M)
    (perspCam : Option (G × Pj)) (orthoCam : Option (G × O))
    (selected_entities : List Entity) (world : Entity → Option Transform)
    (gizmo_mode : GizmoMode) : (Entity → Option Transform) × List GEvent :=
  match perspCam with
  | none =>
    match orthoCam with
    | none => (world, [])
    | some oc =>
      if selected_entities.length ≠ 1 then
        (world, [GEvent.selectionCheck selected_entities.length])
      else
        let view := env.viewOf oc.1
        let proj := env.orthoProjOf oc.2
        let out := gizmoLoop env view proj gizmo_mode world selected_entities
        (out.1, GEvent.selectionCheck selected_entities.length :: GEvent.viewProj false :: out.2)
  | some pc =>
    let view := env.viewOf pc.1
    let proj := env.projOf pc.2
    if selected_entities.length ≠ 1 then
      (world, [GEvent.viewProj true, GEvent.selectionCheck selected_entities.length])
    else
      let out := gizmoLoop env view proj gizmo_mode world selected_entities
      (out.1, GEvent.viewProj true :: GEvent.selectionCheck selected_entities.length :: out.2)

/-! ## src/lib.rs: InspectorSelection, UiState, panels -/

/-- src/lib.rs lines 130-135, InspectorSelection. -/
inductive InspectorSelection where
  | entities
  | resource (type_id : TypeId) (name : String)
  | asset (type_id : TypeId) (name : String) (handle : HandleId)
deriving DecidableEq

/-- One TypeRegistration as consumed by the panels: short name, type id,
whether registration.data::<ReflectResource>() is present, whether
registration.data::<ReflectAsset>() is present, and (for assets) the
instance ids that reflect_asset.ids(world) enumerates this frame. -/
structure TypeRegistration where
  short_name : String
  type_id : TypeId
  isResource : Bool
  isAsset : Bool
  assetIds : List HandleId
deriving DecidableEq

/-- The comparator of the two sort_by calls (src/lib.rs 344 and 375):
compare rows by short name only. -/
def nameLe {β : Type} (a b : String × β) : Prop :=
  a.1 ≤ b.1

instance {β : Type} : DecidableRel (@nameLe β) :=
  fun a b => inferInstanceAs (Decidable (a.1 ≤ b.1))

instance {β : Type} : IsTotal (String × β) nameLe :=
  ⟨fun a b => le_total a.1 b.1⟩

instance {β : Type} : IsTrans (String × β) nameLe :=
  ⟨fun _ _ _ hab hbc => le_trans hab hbc⟩

/-- Rust slice::sort_by with the short-name comparator is a stable sort;
modelled by insertion sort, which is stable. -/
def sortByName {β : Type} (l : List (String × β)) : List (String × β) :=
  List.insertionSort nameLe l

/-- The resource rows in registration (enumeration) order, before sorting
(src/lib.rs 339-343): every registration whose ReflectResource data is
present, as a (short_name, type_id) pair. -/
def resourceEntries (regs : List TypeRegistration) : List (String × TypeId) :=
  (regs.filter (fun r => r.isResource)).map (fun r => (r.short_name, r.type_id))

/-- The sorted resource listing (src/lib.rs 339-344). -/
def resourceRows (regs : List TypeRegistration) : List (String × TypeId) :=
  sortByName (resourceEntries regs)

/-- The asset rows in registration order, before sorting (src/lib.rs
364-374): every registration with ReflectAsset data, as
(short_name, (type_id, instance ids)). -/
def assetEntries (regs : List TypeRegistration) :
    List (String × TypeId × List HandleId) :=
  regs.filterMap (fun r =>
    if r.isAsset then some (r.short_name, r.type_id, r.assetIds) else none)

/-- The sorted asset listing (src/lib.rs 364-375). -/
def assetRows (regs : List TypeRegistration) :
    List (String × TypeId × List HandleId) :=
  sortByName (assetEntries regs)

/-- Vec::sort on the instance ids inside one asset's collapsing section
(src/lib.rs 379). -/
def sortHandles (l : List HandleId) : List HandleId :=
  List.insertionSort (fun a b => a ≤ b) l

/-- src/lib.rs lines 347-350: a resource row is drawn highlighted exactly
when the current selection is the Resource variant with the same TypeId;
the stored display name is not consulted. -/
def resource_row_highlight (selection : InspectorSelection) (type_id : TypeId) : Bool :=
  match selection with
  | InspectorSelection.resource selected _ => selected == type_id
  | _ => false

/-- src/lib.rs lines 383-386: an asset instance row is drawn highlighted
exactly when the current selection is the Asset variant with the same
handle id; the stored TypeId and display name are not consulted. -/
def asset_row_highlight (selection : InspectorSelection) (handle : HandleId) : Bool :=
  match selection with
  | InspectorSelection.asset _ _ selected_id => selected_id == handle
  | _ => false

/-- The row loop of select_resource (src/lib.rs 346-355).  `clicked i` is
whether the selectable label of the i-th displayed row was clicked this
frame; a click replaces the selection with the Resource variant built from
that row.  Also returns the highlight flag each row was drawn with. -/
def selectResourceLoop (clicked : Nat → Bool) :
    Nat → InspectorSelection → List (String × TypeId) →
    InspectorSelection × List Bool
  | _, sel, [] => (sel, [])
  | i, sel, row :: rest =>
    let flag := resource_row_highlight sel row.2
    let sel1 := if clicked i then InspectorSelection.resource row.2 row.1 else sel
    let out := selectResourceLoop clicked (i + 1) sel1 rest
    (out.1, flag :: out.2)

/-- src/lib.rs lines 334-356, select_resource. -/
def select_resource (regs : List TypeRegistration) (clicked : Nat → Bool)
    (selection : InspectorSelection) : InspectorSelection × List Bool :=
  selectResourceLoop clicked 0 selection (resourceRows regs)

/-- The inner handle loop of select_asset (src/lib.rs 382-395) for one asset
section: `clicked i j` is whether handle row j of asset section i was
clicked; a click replaces the selection with the Asset variant built from
the section's type id and name and the row's handle. -/
def assetHandleLoop (clicked : Nat → Nat → Bool) (i : Nat) (name : String)
    (type_id : TypeId) :
    Nat → InspectorSelection → List HandleId → InspectorSelection × List Bool
  | _, sel, [] => (sel, [])
  | j, sel, h :: rest =>
    let flag := asset_row_highlight sel h
    let sel1 := if clicked i j then InspectorSelection.asset type_id name h else sel
    let out := assetHandleLoop clicked i name type_id (j + 1) sel1 rest
    (out.1, flag :: out.2)

/-- The outer asset-section loop of select_asset (src/lib.rs 377-397):
for each sorted asset row, sort its instance ids and run the handle loop. -/
def selectAssetLoop (clicked : Nat → Nat → Bool) :
    Nat → InspectorSelection → List (String × TypeId × List HandleId) →
    InspectorSelection × List (List Bool)
  | _, sel, [] => (sel, [])
  | i, sel, row :: rest =>
    let inner := assetHandleLoop clicked i row.1 row.2.1 0 sel (sortHandles row.2.2)
    let out := selectAssetLoop clicked (i + 1) inner.1 rest
    (out.1, inner.2 :: out.2)

/-- src/lib.rs lines 358-398, select_asset. -/
def select_asset (regs : List TypeRegistration) (clicked : Nat → Nat → Bool)
    (selection : InspectorSelection) : InspectorSelection × List (List Bool) :=
  selectAssetLoop clicked 0 selection (assetRows regs)

/-- The UiState fields the claims are about (src/lib.rs 137-144; the dock
tree is engine-side layout state outside the claims). -/
structure UiStateM where
  selected_entities : List Entity
  selection : InspectorSelection
  viewport_rect : EguiRect
  gizmo_mode : GizmoMode

/-- TabViewer::ui, EguiWindow::Resources arm (src/lib.rs 214): only the
selection field is passed to select_resource; no other UiState field is
touched. -/
def resourcesTab (regs : List TypeRegistration) (clicked : Nat → Bool)
    (st : UiStateM) : UiStateM :=
  { st with selection := (select_resource regs clicked st.selection).1 }

/-- TabViewer::ui, EguiWindow::Assets arm (src/lib.rs 215): only the
selection field is passed to select_asset. -/
def assetsTab (regs : List TypeRegistration) (clicked : Nat → Nat → Bool)
    (st : UiStateM) : UiStateM :=
  { st with selection := (select_asset regs clicked st.selection).1 }

/-- Which editor widget the Inspector tab invokes. -/
inductive InspectorRender where
  | entityEditor (e : Entity)
  | sharedEditor (es : List Entity)
  | resourceEditor (type_id : TypeId) (name : String)
  | assetEditor (type_id : TypeId) (name : String) (handle : HandleId)
deriving DecidableEq

/-- TabViewer::ui, EguiWindow::Inspector arm (src/lib.rs 216-241): dispatch
on the InspectionTarget variant; under the Entities variant a one-element
selection slice invokes ui_for_entity_with_children, any other slice
invokes ui_for_entities_shared_components on the whole slice. -/
def inspector_ui : InspectorSelection → List Entity → InspectorRender
  | InspectorSelection.entities, [e] => InspectorRender.entityEditor e
  | InspectorSelection.entities, es => InspectorRender.sharedEditor es
  | InspectorSelection.resource type_id name, _ =>
    InspectorRender.resourceEditor type_id name
  | InspectorSelection.asset type_id name handle, _ =>
    InspectorRender.assetEditor type_id name handle

/-! ## Concrete instances used to evaluate the embedding -/

/-- The name-n sublist of a listing: the rows whose short name is n, in
display order.  Equality of this sublist with the pre-sort enumeration is
the standard characterisation of a stable sort. -/
def filterName {β : Type} (n : String) (l : List (String × β)) : List (String × β) :=
  l.filter (fun row => row.1 == n)

/-- A concrete gizmo interaction result for evaluating draw_gizmo. -/
def rExample : GizmoResult :=
  { translation := ⟨1, 2, 3⟩, rotation := ⟨0, 0, 0, 1⟩, scale := ⟨1, 1, 1⟩ }

/-- A concrete prior transform for evaluating draw_gizmo. -/
def tExample : Transform :=
  { translation := ⟨9, 9, 9⟩, rotation := ⟨1, 0, 0, 0⟩, scale := ⟨2, 2, 2⟩ }

/-- A gizmo environment whose interact call always returns rExample. -/
def envInteract : GizmoEnv Unit Unit Unit Unit :=
  { viewOf := fun _ => (), projOf := fun _ => (), orthoProjOf := fun _ => (),
    computeMatrix := fun _ => (), interact := fun _ _ _ _ _ _ => some rExample }

/-- A gizmo environment whose interact call never returns a result. -/
def envIdle : GizmoEnv Unit Unit Unit Unit :=
  { viewOf := fun _ => (), projOf := fun _ => (), orthoProjOf := fun _ => (),
    computeMatrix := fun _ => (), interact := fun _ _ _ _ _ _ => none }

/-- A transform store giving every entity the transform tExample. -/
def worldExample : Entity → Option Transform :=
  fun _ => some tExample

end BevyEditor

namespace BevyEditor

/-! ## Theorems -/

/-- Claim C4: over any sequence of frames, the EditorResource boolean after
editor_input_system has processed every frame equals the initial value XOR
the parity of the number of frames in which the toggle key F1 was
just-pressed: each press edge flips the boolean independently of its
current value, and frames without a press leave it unchanged. -/
theorem mode_toggle_parity (frames : List (KeyCode → Bool)) (ed : Bool) :
    run_editor_input frames ed
      = Bool.xor ed (decide ((frames.countP (fun jp => jp KeyCode.F1)) % 2 = 1)) := by
  induction frames generalizing ed with
  | nil => simp [run_editor_input]
  | cons jp rest ih =>
    have hrun : run_editor_input (jp :: rest) ed
        = run_editor_input rest (editor_input_system jp ed) := rfl
    rw [hrun, ih]
    cases h : jp KeyCode.F1 with
    | false => simp [editor_input_system, h, List.countP_cons]
    | true =>
      simp only [editor_input_system, h, if_true, List.countP_cons, if_pos]
      rcases Nat.mod_two_eq_zero_or_one (rest.countP fun jp => jp KeyCode.F1) with h2 | h2 <;>
        simp [Nat.add_mod, h2]

/-- Claim C10: each frame, set_gizmo_mode leaves the mode unchanged when no
mode key is just-pressed, sets it to the pressed key's mode when exactly one
is, and on simultaneous presses resolves by the fixed iteration order
Rotate, Translate, Scale with the last match winning, so S beats T beats R. -/
theorem gizmo_mode_key_precedence (jp : KeyCode → Bool) (m : GizmoMode) :
    set_gizmo_mode jp m =
      if jp KeyCode.S then GizmoMode.Scale
      else if jp KeyCode.T then GizmoMode.Translate
      else if jp KeyCode.R then GizmoMode.Rotate
      else m := by
  cases hR : jp KeyCode.R <;> cases hT : jp KeyCode.T <;> cases hS : jp KeyCode.S <;>
    simp [set_gizmo_mode, hR, hT, hS]

/-- Claim C5, counterexample: at a start-up with two cameras a camera does
exist, yet setup sends the app-exit event and tags no camera, refuting
"aborting happens exactly under the no-camera condition and no other". -/
theorem setup_abort_on_two_cameras :
    (setup [0, 1]).appExitSent = true
    ∧ ([0, 1] : List Entity) ≠ []
    ∧ (setup [0, 1]).mainCameraTagged = none
    ∧ (setup [0, 1]).editorResourceInserted = none := by
  refine ⟨rfl, by simp, rfl, rfl⟩

/-- Claim C5, amended: setup sends the host app-exit event exactly when the
camera query does not match exactly one camera (none, or several); in that
case no camera is tagged and no editor-mode resource is inserted, and with
exactly one camera it is tagged MainCamera, inspection mode starts off, and
no exit is signalled. -/
theorem setup_abort_iff_camera_count (cameras : List Entity) :
    ((setup cameras).appExitSent = true ↔ cameras.length ≠ 1)
    ∧ ((setup cameras).appExitSent = true →
        (setup cameras).mainCameraTagged = none
        ∧ (setup cameras).editorResourceInserted = none)
    ∧ (∀ c, cameras = [c] →
        (setup cameras).mainCameraTagged = some c
        ∧ (setup cameras).editorResourceInserted = some false
        ∧ (setup cameras).appExitSent = false) := by
  match cameras with
  | [] => simp [setup]
  | [c] => simp [setup]
  | a :: b :: t => simp [setup]

/-- Witness for setup_abort_iff_camera_count at the one-camera start-up. -/
theorem setup_abort_iff_camera_count_witness :
    (setup [7]).mainCameraTagged = some 7
    ∧ (setup [7]).editorResourceInserted = some false
    ∧ (setup [7]).appExitSent = false :=
  (setup_abort_iff_camera_count [7]).2.2 7 rfl

/-- Claim C7: the Inspector tab dispatches on the InspectionTarget variant:
under the Selection variant a one-element selection invokes the recursive
single-entity-with-children editor and every other count (zero included)
invokes the shared-components editor on the whole selection slice, so the
empty selection renders the (empty) shared view and never an error; the
resource and asset variants invoke their by-type-id editors. -/
theorem inspector_dispatch (selected : List Entity) :
    (∀ e, selected = [e] →
        inspector_ui InspectorSelection.entities selected
          = InspectorRender.entityEditor e)
    ∧ (selected.length ≠ 1 →
        inspector_ui InspectorSelection.entities selected
          = InspectorRender.sharedEditor selected)
    ∧ (∀ type_id name,
        inspector_ui (InspectorSelection.resource type_id name) selected
          = InspectorRender.resourceEditor type_id name)
    ∧ (∀ type_id name handle,
        inspector_ui (InspectorSelection.asset type_id name handle) selected
          = InspectorRender.assetEditor type_id name handle) := by
  refine ⟨?_, ?_, ?_, ?_⟩
  · rintro e rfl; rfl
  · intro hlen
    match selected with
    | [] => rfl
    | [e] => exact (hlen rfl).elim
    | a :: b :: t => rfl
  · intro type_id name
    cases selected with
    | nil => rfl
    | cons a t => cases t <;> rfl
  · intro type_id name handle
    cases selected with
    | nil => rfl
    | cons a t => cases t <;> rfl

/-- Witness for inspector_dispatch at an empty and a singleton selection. -/
theorem inspector_dispatch_witness :
    inspector_ui InspectorSelection.entities [] = InspectorRender.sharedEditor []
    ∧ inspector_ui InspectorSelection.entities [3] = InspectorRender.entityEditor 3 :=
  ⟨(inspector_dispatch []).2.1 (by decide), (inspector_dispatch [3]).1 3 rfl⟩

/-- Claim C9: a listing row's highlighted state depends on a strict subset
of the InspectionTarget fields: a resource row is highlighted exactly when
the target is the Resource variant with the same TypeId, whatever its
stored name; an asset instance row is highlighted exactly when the target
is the Asset variant with the same handle id, whatever its stored TypeId
and name — so an instance of a different asset type with an equal handle id
also renders as selected. -/
theorem row_highlight_fields (selection : InspectorSelection)
    (type_id : TypeId) (handle : HandleId) :
    (resource_row_highlight selection type_id = true
      ↔ ∃ name, selection = InspectorSelection.resource type_id name)
    ∧ (asset_row_highlight selection handle = true
      ↔ ∃ other_type other_name,
          selection = InspectorSelection.asset other_type other_name handle) := by
  cases selection <;>
    simp [resource_row_highlight, asset_row_highlight]

/-- Claim C1: in a frame with a primary window and exactly one MainCamera
camera, set_camera_viewport writes the camera viewport: with inspection
mode off, the full physical window at origin (0,0); with it on, the
recorded ViewportRect scaled from UI space to physical pixels by the
display scale factor (window scale times the egui settings scale), origin
at the rectangle's top-left; and with no main-designated camera no camera
is modified. -/
theorem viewport_sync_cases (rect : EguiRect) (w : WindowM) (egui_scale : ℚ)
    (c : Option ViewportM) (ed : Bool) :
    (ed = false →
      set_camera_viewport rect (some w) egui_scale [c] ed
        = [some { physical_position := (0, 0)
                  physical_size := (w.physical_width, w.physical_height)
                  depth_min := 0, depth_max := 1 }])
    ∧ (ed = true →
      set_camera_viewport rect (some w) egui_scale [c] ed
        = [some { physical_position :=
                    (ratToU32 (rect.min_x * (w.scale_factor * egui_scale)),
                     ratToU32 (rect.min_y * (w.scale_factor * egui_scale)))
                  physical_size :=
                    (ratToU32 ((rect.max_x - rect.min_x) * (w.scale_factor * egui_scale)),
                     ratToU32 ((rect.max_y - rect.min_y) * (w.scale_factor * egui_scale)))
                  depth_min := 0, depth_max := 1 }])
    ∧ set_camera_viewport rect (some w) egui_scale [] ed = [] := by
  refine ⟨?_, ?_, ?_⟩
  · rintro rfl; rfl
  · rintro rfl; rfl
  · rfl

/-- Witness for viewport_sync_cases: the spec's worked example, a UI
rectangle with top-left (10,20) and size (100,50) at combined scale factor
2.0, yields the physical viewport position (20,40) and size (200,100). -/
theorem viewport_sync_cases_witness :
    set_camera_viewport ⟨10, 20, 110, 70⟩ (some ⟨2, 800, 600⟩) 1 [none] true
      = [some { physical_position := (20, 40), physical_size := (200, 100),
                depth_min := 0, depth_max := 1 }] := by
  have h := (viewport_sync_cases ⟨10, 20, 110, 70⟩ ⟨2, 800, 600⟩ 1 none true).2.1 rfl
  rw [h]
  rw [show ((110 : ℚ) - 10) = 100 from by rw [Rat.sub_def]; decide,
      show ((70 : ℚ) - 20) = 50 from by rw [Rat.sub_def]; decide,
      show ((2 : ℚ) * 1) = 2 from by rw [Rat.mul_def]; decide,
      show ((10 : ℚ) * 2) = 20 from by rw [Rat.mul_def]; decide,
      show ((20 : ℚ) * 2) = 40 from by rw [Rat.mul_def]; decide,
      show ((100 : ℚ) * 2) = 200 from by rw [Rat.mul_def]; decide,
      show ((50 : ℚ) * 2) = 100 from by rw [Rat.mul_def]; decide]
  decide

/-- Claim C2: whenever the gizmo interaction returns a result for the
single selected entity, the entity's transform after the frame is exactly
the returned result — translation, rotation and scale are fully replaced
with the gizmo's absolute values, independent of the prior transform t —
in the perspective branch and in the orthographic branch alike. -/
theorem gizmo_writeback_absolute {G O Pj M : Type} (env : GizmoEnv G O Pj M)
    (pc : G × Pj) (oc : G × O) (orthoCam : Option (G × O)) (e : Entity)
    (world : Entity → Option Transform) (t : Transform) (r : GizmoResult)
    (mode : GizmoMode)
    (ht : world e = some t)
    (hr : ∀ m v p, env.interact e m v p GizmoOrientation.Local mode = some r) :
    (draw_gizmo env (some pc) orthoCam [e] world mode).1 e
        = some { translation := r.translation, rotation := r.rotation, scale := r.scale }
    ∧ (draw_gizmo env none (some oc) [e] world mode).1 e
        = some { translation := r.translation, rotation := r.rotation, scale := r.scale } := by
  constructor <;> simp [draw_gizmo, gizmoLoop, ht, hr]

/-- Witness for gizmo_writeback_absolute: a concrete environment whose
gizmo always returns rExample overwrites entity 4's transform with exactly
rExample's fields in both branches. -/
theorem gizmo_writeback_absolute_witness :
    (draw_gizmo envInteract (some ((), ())) none [4] worldExample GizmoMode.Translate).1 4
        = some { translation := rExample.translation, rotation := rExample.rotation,
                 scale := rExample.scale }
    ∧ (draw_gizmo envInteract none (some ((), ())) [4] worldExample GizmoMode.Translate).1 4
        = some { translation := rExample.translation, rotation := rExample.rotation,
                 scale := rExample.scale } :=
  gizmo_writeback_absolute envInteract ((), ()) ((), ()) none 4 worldExample tExample
    rExample GizmoMode.Translate rfl (fun _ _ _ => rfl)

/-- Claim C3, evaluation at the failing input: with a perspective camera
present and two entities selected, draw_gizmo computes the view and
projection matrices (the viewProj event) before the single-selection check,
then no-ops — no model matrix, no gizmo interaction, no transform write.
The claim's requirement that the selection check precede any matrix work
thus fails in the perspective branch, while the orthographic branch (same
selection, no perspective camera) checks first and does no matrix work. -/
theorem gizmo_persp_matrices_before_check :
    draw_gizmo envIdle (some ((), ())) none [0, 1] worldExample GizmoMode.Translate
      = (worldExample, [GEvent.viewProj true, GEvent.selectionCheck 2])
    ∧ draw_gizmo envIdle none (some ((), ())) [0, 1] worldExample GizmoMode.Translate
      = (worldExample, [GEvent.selectionCheck 2]) :=
  ⟨rfl, rfl⟩

/-- The resource row loop either leaves the selection untouched (no click)
or ends in a Resource target built from a clicked row only, whatever the
incoming selection was. -/
theorem selectResourceLoop_fst (clicked : Nat → Bool) (rows : List (String × TypeId)) :
    ∀ i, (∀ s, (selectResourceLoop clicked i s rows).1 = s)
      ∨ ∃ tid name, ∀ s, (selectResourceLoop clicked i s rows).1
          = InspectorSelection.resource tid name := by
  induction rows with
  | nil => exact fun i => Or.inl fun s => rfl
  | cons row rest ih =>
    intro i
    rcases ih (i + 1) with hid | ⟨tid, name, hconst⟩
    · cases hc : clicked i with
      | true =>
        exact Or.inr ⟨row.2, row.1, fun s => by simp [selectResourceLoop, hc, hid]⟩
      | false =>
        exact Or.inl fun s => by simp [selectResourceLoop, hc, hid]
    · exact Or.inr ⟨tid, name, fun s => by simp [selectResourceLoop, hconst]⟩

/-- The per-asset handle loop either leaves the selection untouched or ends
in an Asset target built from a clicked row only. -/
theorem assetHandleLoop_fst (clicked : Nat → Nat → Bool) (i : Nat) (name : String)
    (type_id : TypeId) (handles : List HandleId) :
    ∀ j, (∀ s, (assetHandleLoop clicked i name type_id j s handles).1 = s)
      ∨ ∃ tid nm h, ∀ s, (assetHandleLoop clicked i name type_id j s handles).1
          = InspectorSelection.asset tid nm h := by
  induction handles with
  | nil => exact fun j => Or.inl fun s => rfl
  | cons hd rest ih =>
    intro j
    rcases ih (j + 1) with hid | ⟨tid, nm, h, hconst⟩
    · cases hc : clicked i j with
      | true =>
        exact Or.inr ⟨type_id, name, hd, fun s => by simp [assetHandleLoop, hc, hid]⟩
      | false =>
        exact Or.inl fun s => by simp [assetHandleLoop, hc, hid]
    · exact Or.inr ⟨tid, nm, h, fun s => by simp [assetHandleLoop, hconst]⟩

/-- The asset section loop either leaves the selection untouched or ends in
an Asset target built from a clicked row only. -/
theorem selectAssetLoop_fst (clicked : Nat → Nat → Bool)
    (rows : List (String × TypeId × List HandleId)) :
    ∀ i, (∀ s, (selectAssetLoop clicked i s rows).1 = s)
      ∨ ∃ tid nm h, ∀ s, (selectAssetLoop clicked i s rows).1
          = InspectorSelection.asset tid nm h := by
  induction rows with
  | nil => exact fun i => Or.inl fun s => rfl
  | cons row rest ih =>
    intro i
    rcases ih (i + 1) with hid | ⟨tid, nm, h, hconst⟩
    · rcases assetHandleLoop_fst clicked i row.1 row.2.1 (sortHandles row.2.2) 0 with
        hinner | ⟨tid, nm, h, hinner⟩
      · exact Or.inl fun s => by simp [selectAssetLoop, hid, hinner]
      · exact Or.inr ⟨tid, nm, h, fun s => by simp [selectAssetLoop, hid, hinner]⟩
    · exact Or.inr ⟨tid, nm, h, fun s => by simp [selectAssetLoop, hconst]⟩

/-- Claim C6: the Resources and Assets tabs leave the latent
selected-entities sequence untouched (so switching back to the Selection
variant finds the same objects), and a click replaces the InspectionTarget
entirely: the resulting target is built from the clicked row alone,
identical whatever the prior target and its fields were. -/
theorem target_switch_replaces (regs : List TypeRegistration) (clickedR : Nat → Bool)
    (clickedA : Nat → Nat → Bool) (st : UiStateM) :
    (resourcesTab regs clickedR st).selected_entities = st.selected_entities
    ∧ (assetsTab regs clickedA st).selected_entities = st.selected_entities
    ∧ ((∀ s, (select_resource regs clickedR s).1 = s)
       ∨ ∃ tid name, ∀ s, (select_resource regs clickedR s).1
           = InspectorSelection.resource tid name)
    ∧ ((∀ s, (select_asset regs clickedA s).1 = s)
       ∨ ∃ tid name h, ∀ s, (select_asset regs clickedA s).1
           = InspectorSelection.asset tid name h) :=
  ⟨rfl, rfl, selectResourceLoop_fst clickedR (resourceRows regs) 0,
   selectAssetLoop_fst clickedA (assetRows regs) 0⟩

/-- Inserting a row whose short name differs from n does not disturb the
name-n sublist. -/
theorem filterName_orderedInsert_ne {β : Type} (n : String) (x : String × β)
    (l : List (String × β)) (hx : ¬ x.1 = n) :
    filterName n (List.orderedInsert nameLe x l) = filterName n l := by
  induction l with
  | nil => simp [filterName, List.orderedInsert, hx]
  | cons y ys ih =>
    by_cases hxy : nameLe x y
    · simp [filterName, List.orderedInsert, hxy, hx]
    · simp only [filterName, List.orderedInsert, if_neg hxy, List.filter_cons] at *
      rw [ih]

/-- Inserting a row named n into a sorted list prepends it to the name-n
sublist: every row it is placed behind has a strictly smaller name. -/
theorem filterName_orderedInsert_eq {β : Type} (n : String) (x : String × β)
    (l : List (String × β)) (hl : List.Sorted nameLe l) (hx : x.1 = n) :
    filterName n (List.orderedInsert nameLe x l) = x :: filterName n l := by
  induction l with
  | nil => simp [filterName, List.orderedInsert, hx]
  | cons y ys ih =>
    by_cases hxy : nameLe x y
    · simp [filterName, List.orderedInsert, hxy, hx]
    · have hyx : y.1 < x.1 := lt_of_not_le hxy
      have hyn : ¬ y.1 = n := hx ▸ ne_of_lt hyx
      simp only [filterName, List.orderedInsert, if_neg hxy, List.filter_cons] at *
      rw [if_neg (by simpa using hyn), if_neg (by simpa using hyn), ih hl.of_cons]

/-- Stability of the by-short-name sort: the name-n sublist of the sorted
listing equals the name-n sublist of the enumeration, for every n. -/
theorem filterName_sortByName {β : Type} (n : String) (l : List (String × β)) :
    filterName n (sortByName l) = filterName n l := by
  induction l with
  | nil => rfl
  | cons x xs ih =>
    show filterName n (List.orderedInsert nameLe x (List.insertionSort nameLe xs))
        = filterName n (x :: xs)
    by_cases hx : x.1 = n
    · rw [filterName_orderedInsert_eq n x _ (List.sorted_insertionSort nameLe xs) hx]
      rw [show filterName n (List.insertionSort nameLe xs) = filterName n xs from ih]
      simp [filterName, List.filter_cons, hx]
    · rw [filterName_orderedInsert_ne n x _ hx]
      rw [show filterName n (List.insertionSort nameLe xs) = filterName n xs from ih]
      simp [filterName, List.filter_cons, hx]

/-- Claim C8: for every registry content and insertion order, the resource
listing holds exactly the resource-tagged registrations and the asset
listing exactly the asset-tagged ones (a permutation of the enumeration),
each sorted ascending by short name, and the sort is stable: rows of equal
short name keep their registration order (their name-n sublist equals the
enumeration's, for every n). -/
theorem listing_sorted_stable (regs : List TypeRegistration) :
    List.Sorted nameLe (resourceRows regs)
    ∧ (∀ n, filterName n (resourceRows regs) = filterName n (resourceEntries regs))
    ∧ (resourceRows regs).Perm (resourceEntries regs)
    ∧ List.Sorted nameLe (assetRows regs)
    ∧ (∀ n, filterName n (assetRows regs) = filterName n (assetEntries regs))
    ∧ (assetRows regs).Perm (assetEntries regs) :=
  ⟨List.sorted_insertionSort nameLe (resourceEntries regs),
   fun n => filterName_sortByName n (resourceEntries regs),
   List.perm_insertionSort nameLe (resourceEntries regs),
   List.sorted_insertionSort nameLe (assetEntries regs),
   fun n => filterName_sortByName n (assetEntries regs),
   List.perm_insertionSort nameLe (assetEntries regs)⟩

end BevyEditor
